import Mathlib

/-!
Verification of the X6100 CAT (CI-V) protocol core (`src/cat.c` of x6100_gui).

The serial byte stream, the 256-byte frame buffer, the dispatcher and one
iteration of the background protocol loop are embedded as pure functions.
Bytes are naturals (all byte values written by the code are < 256); the bytes
written back to the port are collected, in order, as a list of chunks, one
chunk per `write` call.
-/

set_option maxRecDepth 100000

namespace X6100Cat

/-- `FRAME_PRE` of cat.c: frame preamble sentinel. -/
def FRAME_PRE : Nat := 0xFE

/-- `FRAME_END` of cat.c: frame terminator sentinel. -/
def FRAME_END : Nat := 0xFD

/-- `CODE_OK` of cat.c: success reply code. -/
def CODE_OK : Nat := 0xFB

/-- `CODE_NG` of cat.c: failure reply code. -/
def CODE_NG : Nat := 0xFA

/-- `C_RD_FREQ` of cat.c. -/
def C_RD_FREQ : Nat := 0x03

/-- `C_RD_MODE` of cat.c. -/
def C_RD_MODE : Nat := 0x04

/-- `C_SET_FREQ` of cat.c. -/
def C_SET_FREQ : Nat := 0x05

/-- `C_SET_MODE` of cat.c. -/
def C_SET_MODE : Nat := 0x06

/-- `C_SET_VFO` of cat.c. -/
def C_SET_VFO : Nat := 0x07

/-- `C_CTL_PTT` of cat.c. -/
def C_CTL_PTT : Nat := 0x1c

/-- `C_SEND_SEL_FREQ` of cat.c. -/
def C_SEND_SEL_FREQ : Nat := 0x25

/-- `C_SEND_SEL_MODE` of cat.c. -/
def C_SEND_SEL_MODE : Nat := 0x26

/-- `S_VFOA` of cat.c. -/
def S_VFOA : Nat := 0x00

/-- `S_VFOB` of cat.c. -/
def S_VFOB : Nat := 0x01

/-- `M_LSB` of cat.c. -/
def M_LSB : Nat := 0x00

/-- `M_USB` of cat.c. -/
def M_USB : Nat := 0x01

/-- `M_AM` of cat.c. -/
def M_AM : Nat := 0x02

/-- `M_CW` of cat.c. -/
def M_CW : Nat := 0x03

/-- `M_NFM` of cat.c. -/
def M_NFM : Nat := 0x05

/-- `M_CWR` of cat.c. -/
def M_CWR : Nat := 0x07

/-- Modelled from the spec: helper for the BCD Codec `encode` of util.c
(`to_bcd`), which is not part of the excerpt.  Spec 4.1: digits are written
least-significant first, two per byte, low nibble the even-position digit and
high nibble the next digit.  One packed byte per recursion step. -/
def tb_go : Nat → Nat → List Nat
  | 0, _ => []
  | b + 1, v => (v % 10 + 16 * (v / 10 % 10)) :: tb_go b (v / 100)

/-- Modelled from the spec: `to_bcd(bcd_data, data, len)` of util.c writes
`len / 2` packed-BCD bytes of `data`, least-significant digit first. -/
def to_bcd (v digits : Nat) : List Nat := tb_go (digits / 2) v

/-- Modelled from the spec: helper for the BCD Codec `decode` of util.c
(`from_bcd`): the inverse packed layout, one byte per recursion step.
A missing byte reads as 0 (the buffer is zero-filled). -/
def fb_go : Nat → List Nat → Nat
  | 0, _ => 0
  | _ + 1, [] => 0
  | b + 1, x :: xs => x % 16 + 10 * (x / 16 % 16) + 100 * fb_go b xs

/-- Modelled from the spec: `from_bcd(bcd_data, len)` of util.c reconstructs
the unsigned value from `len / 2` packed-BCD bytes. -/
def from_bcd (bytes : List Nat) (digits : Nat) : Nat := fb_go (digits / 2) bytes

/-- `x6100_vfo_t`: the two VFOs (external enum, aether_radio headers). -/
inductive x6100_vfo_t | VFO_A | VFO_B
deriving DecidableEq

/-- `x6100_mode_t`: the domain mode enumeration (external enum). -/
inductive x6100_mode_t
  | lsb | lsb_dig | usb | usb_dig | cw | cwr | am | nfm
deriving DecidableEq

/-- One entry of `params_band.vfo_x`: frequency and mode of one VFO. -/
structure vfo_x_t where
  freq : Nat
  mode : x6100_mode_t
deriving DecidableEq

/-- Modelled from the spec: the Radio Bridge / `params_band` state consumed by
cat.c (spec 6): two VFOs, each with frequency and mode, the active VFO, and
the transmit state (`tx = false` is `RADIO_RX`). -/
structure RadioState where
  vfo  : x6100_vfo_t
  vfoA : vfo_x_t
  vfoB : vfo_x_t
  tx   : Bool
deriving DecidableEq

/-- `params_band.vfo_x[v]`. -/
def vfo_x (s : RadioState) : x6100_vfo_t → vfo_x_t
  | .VFO_A => s.vfoA
  | .VFO_B => s.vfoB

/-- Write one `params_band.vfo_x[v]` slot. -/
def set_vfo_field (s : RadioState) : x6100_vfo_t → vfo_x_t → RadioState
  | .VFO_A, x => { s with vfoA := x }
  | .VFO_B, x => { s with vfoB := x }

/-- Modelled from the spec: `radio_set_freq` applies the frequency to the
active VFO (spec 6, `set_frequency`). -/
def radio_set_freq (s : RadioState) (f : Nat) : RadioState :=
  set_vfo_field s s.vfo { vfo_x s s.vfo with freq := f }

/-- Modelled from the spec: `radio_set_vfo` selects the active VFO. -/
def radio_set_vfo (s : RadioState) (v : x6100_vfo_t) : RadioState :=
  { s with vfo := v }

/-- Modelled from the spec: `radio_set_mode` sets one VFO's mode.  The C
passes `ci_mode_2_x_mode`'s result, which is uninitialized for unrecognized
wire codes; that undefined case is modelled as `none` / no change. -/
def radio_set_mode (s : RadioState) (v : x6100_vfo_t) : Option x6100_mode_t → RadioState
  | some m => set_vfo_field s v { vfo_x s v with mode := m }
  | none => s

/-- Modelled from the spec: `radio_set_ptt` sets the transmit state. -/
def radio_set_ptt (s : RadioState) (b : Bool) : RadioState := { s with tx := b }

/-- `ci_mode_2_x_mode` of cat.c: wire mode code plus optional data/digital
flag pointer to domain mode.  `data_mode` is true iff the pointer is non-null
and points at a nonzero byte.  The C `default` branch leaves the result
uninitialized; that is modelled as `none`. -/
def ci_mode_2_x_mode (mode : Nat) (dig_mode : Option Nat) : Option x6100_mode_t :=
  let data_mode : Bool := match dig_mode with
    | some d => d != 0
    | none => false
  if mode = M_LSB then some (if data_mode then .lsb_dig else .lsb)
  else if mode = M_USB then some (if data_mode then .usb_dig else .usb)
  else if mode = M_AM then some .am
  else if mode = M_CW then some .cw
  else if mode = M_NFM then some .nfm
  else if mode = M_CWR then some .cwr
  else none

/-- `x_mode_2_ci_mode` of cat.c: domain mode to wire mode code, collapsing
the digital variants; the C default branch returns 0 (unreachable: the enum
is fully covered). -/
def x_mode_2_ci_mode : x6100_mode_t → Nat
  | .lsb | .lsb_dig => M_LSB
  | .usb | .usb_dig => M_USB
  | .cw => M_CW
  | .cwr => M_CWR
  | .am => M_AM
  | .nfm => M_NFM

/-- `set_vfo` of cat.c: the flag is the C return value, the state the effect
of the `radio_set_vfo` call (none for an invalid selector). -/
def set_vfo (s : RadioState) (vfo : Nat) : Bool × RadioState :=
  if vfo = S_VFOA then (true, radio_set_vfo s .VFO_A)
  else if vfo = S_VFOB then (true, radio_set_vfo s .VFO_B)
  else (false, s)

/-- The mutable context of cat.c: the global 256-byte `frame` buffer, the
chunks written to the serial port so far (one list entry per `write` call),
and the radio/params state. -/
structure CatEnv where
  buf    : List Nat
  writes : List (List Nat)
  radio  : RadioState
deriving DecidableEq

/-- `frame[i]` (reads of the zero-initialized buffer default to 0). -/
def bget (buf : List Nat) (i : Nat) : Nat := buf.getD i 0

/-- `frame[i] = v`. -/
def bset (buf : List Nat) (i : Nat) (v : Nat) : List Nat := buf.set i v

/-- Consecutive buffer stores starting at index `i` (how `to_bcd` writes its
output bytes into the frame buffer). -/
def bset_range : List Nat → Nat → List Nat → List Nat
  | buf, _, [] => buf
  | buf, i, v :: vs => bset_range (bset buf i v) (i + 1) vs

/-- `send_frame` of cat.c: store the terminator at `frame[len - 1]`, then
write the first `len` buffer bytes to the port.  For `len = 0` the C index
`len - 1` lies outside the buffer (undefined in C); the buffer is modelled
unchanged there, and the `write` of zero bytes is recorded as an empty
chunk either way. -/
def send_frame_buf (e : CatEnv) (len : Nat) : List Nat :=
  if len = 0 then e.buf else bset e.buf (len - 1) FRAME_END

/-- `send_frame` of cat.c, continued: the buffer after the store above, with
the first `len` of its bytes written to the port as one chunk. -/
def send_frame (e : CatEnv) (len : Nat) : CatEnv :=
  { e with buf := send_frame_buf e len,
           writes := e.writes ++ [(send_frame_buf e len).take len] }

/-- `prepare_answer` of cat.c: destination from sender, source fixed 0xA4. -/
def prepare_answer (buf : List Nat) : List Nat :=
  bset (bset buf 2 (bget buf 3)) 3 0xA4

/-- `send_code` of cat.c. -/
def send_code (e : CatEnv) (code : Nat) : CatEnv :=
  send_frame { e with buf := bset e.buf 4 code } 6

/-- `set_freq` of cat.c: band lookup and screen notification are outside the
modelled state; the radio effect is `radio_set_freq`. -/
def set_freq (e : CatEnv) (freq : Nat) : CatEnv :=
  { e with radio := radio_set_freq e.radio freq }

/-- The set arm of the `C_SEND_SEL_FREQ` case of `frame_parse` of cat.c:
store the decoded frequency into the selected VFO slot (byte 5 zero selects
VFO A, anything else VFO B), and when that VFO is the active one also apply
it live through `set_freq`.  The direct slot assignment
`params_band.vfo_x[...].freq = freq`: -/
def store_sel_vfo (e : CatEnv) (v : x6100_vfo_t) (freq : Nat) : CatEnv :=
  { e with radio := (set_vfo_field e.radio v { vfo_x e.radio v with freq := freq }) }

/-- The conditional application of the stored frequency to the live radio:
`if (params_band.vfo == ...) set_freq(freq);` read on the state after the
store (the store does not touch the active-VFO field). -/
def sel_freq_store (e : CatEnv) (freq : Nat) : CatEnv :=
  if bget e.buf 5 = 0x00 then
    if (store_sel_vfo e .VFO_A freq).radio.vfo = .VFO_A then
      set_freq (store_sel_vfo e .VFO_A freq) freq
    else store_sel_vfo e .VFO_A freq
  else
    if (store_sel_vfo e .VFO_B freq).radio.vfo = .VFO_B then
      set_freq (store_sel_vfo e .VFO_B freq) freq
    else store_sel_vfo e .VFO_B freq

/-- The `switch (frame[4])` body of `frame_parse` of cat.c, run after the
echo and `prepare_answer`. -/
def frame_dispatch (e : CatEnv) : CatEnv :=
  if bget e.buf 4 = C_RD_FREQ then
    send_frame
      { e with buf := bset_range e.buf 5 (to_bcd (vfo_x e.radio e.radio.vfo).freq 10) } 11
  else if bget e.buf 4 = C_RD_MODE then
    let v := x_mode_2_ci_mode (vfo_x e.radio e.radio.vfo).mode
    send_frame { e with buf := bset (bset e.buf 5 v) 6 v } 8
  else if bget e.buf 4 = C_SET_FREQ then
    send_code (set_freq e (from_bcd (e.buf.drop 5) 10)) CODE_OK
  else if bget e.buf 4 = C_SET_MODE then
    send_code
      { e with radio := (radio_set_mode e.radio e.radio.vfo
          (ci_mode_2_x_mode (bget e.buf 5) none)) } CODE_OK
  else if bget e.buf 4 = C_CTL_PTT then
    if bget e.buf 5 = 0x00 then
      if bget e.buf 6 = FRAME_END then
        send_frame { e with buf := bset e.buf 6 (if e.radio.tx then 1 else 0) } 8
      else
        let radio :=
          if bget e.buf 6 = 0 then radio_set_ptt e.radio false
          else if bget e.buf 6 = 1 then radio_set_ptt e.radio true
          else e.radio
        send_frame { e with radio := radio, buf := bset e.buf 6 CODE_OK } 8
    else
      e
  else if bget e.buf 4 = C_SET_VFO then
    let r := set_vfo e.radio (bget e.buf 5)
    if r.1 then send_code { e with radio := r.2 } CODE_OK
    else send_code { e with radio := r.2 } CODE_NG
  else if bget e.buf 4 = C_SEND_SEL_FREQ then
    if bget e.buf 6 = FRAME_END then
      let freq := if bget e.buf 5 = 0x00 then e.radio.vfoA.freq else e.radio.vfoB.freq
      send_frame { e with buf := bset_range e.buf 6 (to_bcd freq 10) } 12
    else
      send_code (sel_freq_store e (from_bcd (e.buf.drop 6) 10)) CODE_OK
  else if bget e.buf 4 = C_SEND_SEL_MODE then
    if bget e.buf 6 = FRAME_END then
      send_frame { e with buf := bset (bset (bset e.buf 6 0) 7 0) 8 CODE_OK } 10
    else
      let vfo :=
        if bget e.buf 5 ≠ 0 then
          match e.radio.vfo with
          | .VFO_A => x6100_vfo_t.VFO_B
          | .VFO_B => x6100_vfo_t.VFO_A
        else e.radio.vfo
      send_code
        { e with radio := (radio_set_mode e.radio vfo
            (ci_mode_2_x_mode (bget e.buf 6) (some (bget e.buf 7)))) } CODE_OK
  else
    send_code e CODE_NG

/-- `frame_parse` of cat.c.  Note the guard is the C condition
`frame[0] != FRAME_PRE && frame[1] != FRAME_PRE`: the frame is dropped only
when BOTH header bytes differ from the preamble sentinel. -/
def frame_parse (e : CatEnv) (len : Nat) : CatEnv :=
  if bget e.buf 0 ≠ FRAME_PRE ∧ bget e.buf 1 ≠ FRAME_PRE then e
  else
    let e1 := send_frame e len
    frame_dispatch { e1 with buf := prepare_answer e1.buf }

/-- `frame_get` of cat.c, inner loop: the remaining stream is the sequence of
bytes the serial port will deliver; an exhausted stream means the C loop
blocks forever polling (`none`).  Appending a byte, the function returns the
accumulated bytes with their length on the terminator, or with length 0 when
the 256-byte buffer fills without one. -/
def frame_get_go (acc : List Nat) : List Nat → Option (List Nat × Nat)
  | [] => none
  | c :: rest =>
    if c = FRAME_END then some (acc ++ [c], (acc ++ [c]).length)
    else if 256 ≤ (acc ++ [c]).length then some (acc ++ [c], 0)
    else frame_get_go (acc ++ [c]) rest

/-- `frame_get` of cat.c: result is the bytes stored into the (zeroed) frame
buffer, paired with the returned length. -/
def frame_get (stream : List Nat) : Option (List Nat × Nat) :=
  frame_get_go [] stream

/-- The global 256-byte frame buffer after `memset` and `frame_get` stored
the received bytes. -/
def bufOfFrame (f : List Nat) : List Nat := f ++ List.replicate (256 - f.length) 0

/-- Context at `frame_parse` entry: freshly read frame in the buffer, nothing
written yet for this frame. -/
def mkEnv (f : List Nat) (st : RadioState) : CatEnv :=
  { buf := bufOfFrame f, writes := [], radio := st }

/-- One iteration of the `cat_thread` loop of cat.c.  The C guard is
`len >= 0` on a `uint16_t`, which is always true, so `frame_parse` runs for
every result of `frame_get`, the empty (length 0) one included. -/
def cat_step (stream : List Nat) (st : RadioState) : Option CatEnv :=
  match frame_get stream with
  | none => none
  | some (f, len) =>
    some (if 0 ≤ len then frame_parse (mkEnv f st) len else mkEnv f st)

/-- Frequency of the active VFO (`params_band.vfo_x[params_band.vfo].freq`). -/
def activeFreq (st : RadioState) : Nat := (vfo_x st st.vfo).freq

/-- A concrete radio state used by the closed evaluation theorems. -/
def st0 : RadioState :=
  { vfo := .VFO_A
    vfoA := { freq := 14074000, mode := .usb }
    vfoB := { freq := 7074000, mode := .lsb }
    tx := false }

/-- The spec's read-frequency scenario frame `[FE, FE, 00, A4, 03, FD]`. -/
def rdFreqFrame : List Nat := [0xFE, 0xFE, 0x00, 0xA4, 0x03, 0xFD]

/-- A well-formed select-VFO frame. -/
def vfoFrame (dst src sel : Nat) : List Nat :=
  [0xFE, 0xFE, dst, src, 0x07, sel, 0xFD]

/-- Set form of the dual-shape selected-VFO-frequency opcode 0x25: selector
byte, then the 10-digit BCD payload, then the terminator. -/
def selFreqSetFrame (sel v : Nat) : List Nat :=
  [0xFE, 0xFE, 0x00, 0xA4, 0x25, sel] ++ to_bcd v 10 ++ [0xFD]

/-- Query form of opcode 0x25: the terminator directly follows the selector. -/
def selFreqQueryFrame (sel : Nat) : List Nat :=
  [0xFE, 0xFE, 0x00, 0xA4, 0x25, sel, 0xFD]

/-- The dispatcher's context for a set-form 0x25 frame, after the echo and
the address rewrite (the echo's terminator store hits the byte that is
already the terminator). -/
def selSetEnv (st : RadioState) (sel v : Nat) : CatEnv :=
  { buf := prepare_answer (bufOfFrame (selFreqSetFrame sel v)),
    writes := [selFreqSetFrame sel v], radio := st }

/-- Byte stream whose first 256 bytes contain no terminator; the prefix is a
read-frequency header, so the leftover buffer content looks like a command. -/
def streamNoTerm : List Nat :=
  [0xFE, 0xFE, 0x00, 0xA4, 0x03] ++ List.replicate 251 0

/-- Second such stream (unknown opcode 0x19 in the leftover bytes). -/
def streamNoTerm2 : List Nat :=
  [0xFE, 0xFE, 0xFF, 0xFF, 0x19] ++ List.replicate 251 0

/-! ### Codec lemmas -/

theorem tb_go_length (b : Nat) : ∀ v, (tb_go b v).length = b := by
  induction b with
  | zero => intro v; rfl
  | succ b ih => intro v; simp [tb_go, ih]

theorem to_bcd_length (v : Nat) : (to_bcd v 10).length = 5 := tb_go_length 5 v

theorem mod_mul_decomp (n a b : Nat) (_ha : 0 < a) :
    n % (a * b) = n % a + a * (n / a % b) := by
  have h1 : n % (a * b) % a = n % a := Nat.mod_mod_of_dvd n ⟨b, rfl⟩
  have h2 : n % (a * b) / a = n / a % b := Nat.mod_mul_right_div_self n a b
  have h3 := Nat.div_add_mod (n % (a * b)) a
  rw [h2, h1] at h3
  omega

theorem fb_tb (b : Nat) : ∀ v, fb_go b (tb_go b v) = v % 100 ^ b := by
  induction b with
  | zero => intro v; simp [tb_go, fb_go, Nat.mod_one]
  | succ b ih =>
    intro v
    have h10 : v % 10 < 10 := Nat.mod_lt _ (by norm_num)
    have h10b : v / 10 % 10 < 10 := Nat.mod_lt _ (by norm_num)
    have hx1 : (v % 10 + 16 * (v / 10 % 10)) % 16 = v % 10 := by
      rw [Nat.add_mul_mod_self_left]
      exact Nat.mod_eq_of_lt (by omega)
    have hx2 : (v % 10 + 16 * (v / 10 % 10)) / 16 % 16 = v / 10 % 10 := by
      have hdiv : (v % 10 + 16 * (v / 10 % 10)) / 16 = v / 10 % 10 := by
        rw [Nat.add_mul_div_left _ _ (by norm_num : 0 < (16 : Nat)),
          Nat.div_eq_of_lt (by omega : v % 10 < 16)]
        omega
      rw [hdiv]
      exact Nat.mod_eq_of_lt (by omega)
    have hmod : v % 100 ^ (b + 1) = v % 100 + 100 * (v / 100 % 100 ^ b) := by
      rw [pow_succ']
      exact mod_mul_decomp v 100 (100 ^ b) (by norm_num)
    have hmod100 : v % 100 = v % 10 + 10 * (v / 10 % 10) := by
      simpa using mod_mul_decomp v 10 10 (by norm_num)
    simp only [tb_go, fb_go]
    rw [hx1, hx2, ih]
    omega

theorem tb_go_mod (b : Nat) : ∀ v, tb_go b (v % 100 ^ b) = tb_go b v := by
  induction b with
  | zero => intro v; rfl
  | succ b ih =>
    intro v
    have hpow : (100 : Nat) ^ (b + 1) = 100 * 100 ^ b := by rw [pow_succ']
    have e1 : v % 100 ^ (b + 1) % 10 = v % 10 := by
      rw [hpow]
      exact Nat.mod_mod_of_dvd v ⟨10 * 100 ^ b, by ring⟩
    have e2 : v % 100 ^ (b + 1) / 10 % 10 = v / 10 % 10 := by
      rw [hpow, show (100 : Nat) * 100 ^ b = 10 * (10 * 100 ^ b) by ring,
        Nat.mod_mul_right_div_self]
      exact Nat.mod_mod_of_dvd _ ⟨100 ^ b, rfl⟩
    have e3 : v % 100 ^ (b + 1) / 100 = v / 100 % 100 ^ b := by
      rw [hpow, Nat.mod_mul_right_div_self]
    simp only [tb_go]
    rw [e1, e2, e3, ih (v / 100)]

theorem fb_go_append (b : Nat) :
    ∀ (l1 l2 : List Nat), l1.length = b → fb_go b (l1 ++ l2) = fb_go b l1 := by
  induction b with
  | zero =>
    intro l1 l2 h
    rfl
  | succ b ih =>
    intro l1 l2 h
    cases l1 with
    | nil => simp at h
    | cons x xs =>
      have h2 : xs.length = b := by simpa using h
      rw [List.cons_append]
      show x % 16 + 10 * (x / 16 % 16) + 100 * fb_go b (xs ++ l2) =
        x % 16 + 10 * (x / 16 % 16) + 100 * fb_go b xs
      rw [ih xs l2 h2]

/-! ### Buffer lemmas -/

theorem set_getD_self (v : Nat) (l : List Nat) :
    ∀ i : Nat, l.getD i 0 = v → l.set i v = l := by
  induction l with
  | nil => intro i h; rfl
  | cons a t ih =>
    intro i h
    cases i with
    | zero =>
      simp only [List.getD_cons_zero] at h
      simp [h]
    | succ n =>
      simp only [List.getD_cons_succ] at h
      simp [ih n h]

theorem bget_bufOfFrame (f : List Nat) (i : Nat) (h : i < f.length) :
    bget (bufOfFrame f) i = bget f i := by
  unfold bget bufOfFrame
  exact List.getD_append f _ 0 i h

theorem take_bufOfFrame (f : List Nat) : (bufOfFrame f).take f.length = f := by
  unfold bufOfFrame
  exact List.take_left f _

theorem bufOfFrame_set_term (f : List Nat) (h0 : 0 < f.length)
    (ht : bget f (f.length - 1) = FRAME_END) :
    bset (bufOfFrame f) (f.length - 1) FRAME_END = bufOfFrame f := by
  unfold bset
  apply set_getD_self
  have h := bget_bufOfFrame f (f.length - 1) (by omega)
  unfold bget at h
  rw [h]
  exact ht

theorem send_frame_echo (f : List Nat) (st : RadioState)
    (h0 : 0 < f.length) (ht : bget f (f.length - 1) = FRAME_END) :
    send_frame (mkEnv f st) f.length =
      { buf := bufOfFrame f, writes := [f], radio := st } := by
  unfold send_frame send_frame_buf mkEnv
  rw [if_neg (show ¬f.length = 0 by omega)]
  rw [bufOfFrame_set_term f h0 ht, take_bufOfFrame]
  rfl

theorem send_code_writes (e : CatEnv) (c : Nat) :
    (send_code e c).writes =
      e.writes ++ [(send_frame_buf { e with buf := bset e.buf 4 c } 6).take 6] := rfl

theorem sel_freq_store_writes (e : CatEnv) (freq : Nat) :
    (sel_freq_store e freq).writes = e.writes := by
  unfold sel_freq_store
  split <;> split <;> rfl

theorem sel_freq_store_buf (e : CatEnv) (freq : Nat) :
    (sel_freq_store e freq).buf = e.buf := by
  unfold sel_freq_store
  split <;> split <;> rfl

theorem frame_dispatch_writes_mono (e : CatEnv) :
    ∃ t, (frame_dispatch e).writes = e.writes ++ t := by
  unfold frame_dispatch
  by_cases h1 : bget e.buf 4 = C_RD_FREQ
  · rw [if_pos h1]; exact ⟨_, rfl⟩
  rw [if_neg h1]
  by_cases h2 : bget e.buf 4 = C_RD_MODE
  · rw [if_pos h2]; exact ⟨_, rfl⟩
  rw [if_neg h2]
  by_cases h3 : bget e.buf 4 = C_SET_FREQ
  · rw [if_pos h3]; exact ⟨_, rfl⟩
  rw [if_neg h3]
  by_cases h4 : bget e.buf 4 = C_SET_MODE
  · rw [if_pos h4]; exact ⟨_, rfl⟩
  rw [if_neg h4]
  by_cases h5 : bget e.buf 4 = C_CTL_PTT
  · rw [if_pos h5]
    by_cases h5a : bget e.buf 5 = 0x00
    · rw [if_pos h5a]
      by_cases h5b : bget e.buf 6 = FRAME_END
      · rw [if_pos h5b]; exact ⟨_, rfl⟩
      · rw [if_neg h5b]; exact ⟨_, rfl⟩
    · rw [if_neg h5a]; exact ⟨[], (List.append_nil e.writes).symm⟩
  rw [if_neg h5]
  by_cases h6 : bget e.buf 4 = C_SET_VFO
  · rw [if_pos h6]
    by_cases h6a : (set_vfo e.radio (bget e.buf 5)).1 = true
    · rw [if_pos h6a]; exact ⟨_, rfl⟩
    · rw [if_neg h6a]; exact ⟨_, rfl⟩
  rw [if_neg h6]
  by_cases h7 : bget e.buf 4 = C_SEND_SEL_FREQ
  · rw [if_pos h7]
    by_cases h7a : bget e.buf 6 = FRAME_END
    · rw [if_pos h7a]; exact ⟨_, rfl⟩
    · rw [if_neg h7a, send_code_writes, sel_freq_store_writes]
      exact ⟨_, rfl⟩
  rw [if_neg h7]
  by_cases h8 : bget e.buf 4 = C_SEND_SEL_MODE
  · rw [if_pos h8]
    by_cases h8a : bget e.buf 6 = FRAME_END
    · rw [if_pos h8a]; exact ⟨_, rfl⟩
    · rw [if_neg h8a]; exact ⟨_, rfl⟩
  rw [if_neg h8]
  exact ⟨_, rfl⟩

theorem frame_parse_steps (f : List Nat) (st : RadioState) (len : Nat)
    (hlen : len ≠ 0) (hf : 0 < f.length) (h0 : bget f 0 = FRAME_PRE) :
    frame_parse (mkEnv f st) len =
      frame_dispatch
        { buf := prepare_answer (bset (bufOfFrame f) (len - 1) FRAME_END),
          writes := [(bset (bufOfFrame f) (len - 1) FRAME_END).take len],
          radio := st } := by
  unfold frame_parse
  rw [if_neg]
  · show frame_dispatch
      { buf := prepare_answer (send_frame_buf (mkEnv f st) len),
        writes := [] ++ [(send_frame_buf (mkEnv f st) len).take len],
        radio := st } =
      frame_dispatch
        { buf := prepare_answer (bset (bufOfFrame f) (len - 1) FRAME_END),
          writes := [(bset (bufOfFrame f) (len - 1) FRAME_END).take len],
          radio := st }
    unfold send_frame_buf mkEnv
    rw [if_neg hlen]
    rfl
  · intro hcon
    refine hcon.1 ?_
    show bget (bufOfFrame f) 0 = FRAME_PRE
    rw [bget_bufOfFrame f 0 hf]
    exact h0

/-! ### Dispatch branch lemmas -/

theorem getD_set_ne (v : Nat) (l : List Nat) :
    ∀ i j : Nat, i ≠ j → (l.set i v).getD j 0 = l.getD j 0 := by
  induction l with
  | nil => intro i j h; rfl
  | cons a t ih =>
    intro i j h
    cases i with
    | zero =>
      cases j with
      | zero => exact absurd rfl h
      | succ m => rfl
    | succ n =>
      cases j with
      | zero => rfl
      | succ m =>
        simp only [List.set, List.getD_cons_succ]
        exact ih n m (by omega)

theorem bget_prepare_answer (buf : List Nat) (i : Nat) (h2 : i ≠ 2) (h3 : i ≠ 3) :
    bget (prepare_answer buf) i = bget buf i := by
  unfold prepare_answer bget bset
  rw [getD_set_ne _ _ 3 i (by omega), getD_set_ne _ _ 2 i (by omega)]

theorem send_code_radio (e : CatEnv) (c : Nat) : (send_code e c).radio = e.radio := rfl

theorem frame_dispatch_ptt_other (e : CatEnv) (h4 : bget e.buf 4 = C_CTL_PTT)
    (h5 : bget e.buf 5 ≠ 0x00) : frame_dispatch e = e := by
  unfold frame_dispatch
  rw [h4, if_neg (by decide), if_neg (by decide), if_neg (by decide), if_neg (by decide),
    if_pos (by decide : C_CTL_PTT = C_CTL_PTT), if_neg h5]

theorem frame_dispatch_sel_freq_set (e : CatEnv) (h4 : bget e.buf 4 = C_SEND_SEL_FREQ)
    (h6 : bget e.buf 6 ≠ FRAME_END) :
    frame_dispatch e = send_code (sel_freq_store e (from_bcd (e.buf.drop 6) 10)) CODE_OK := by
  unfold frame_dispatch
  rw [h4, if_neg (by decide), if_neg (by decide), if_neg (by decide), if_neg (by decide),
    if_neg (by decide), if_neg (by decide),
    if_pos (by decide : C_SEND_SEL_FREQ = C_SEND_SEL_FREQ), if_neg h6]

theorem frame_dispatch_sel_freq_query (e : CatEnv) (h4 : bget e.buf 4 = C_SEND_SEL_FREQ)
    (h6 : bget e.buf 6 = FRAME_END) :
    frame_dispatch e = send_frame
      { e with buf := (bset_range e.buf 6
          (to_bcd (if bget e.buf 5 = 0x00 then e.radio.vfoA.freq else e.radio.vfoB.freq) 10)) }
      12 := by
  unfold frame_dispatch
  rw [h4, if_neg (by decide), if_neg (by decide), if_neg (by decide), if_neg (by decide),
    if_neg (by decide), if_neg (by decide),
    if_pos (by decide : C_SEND_SEL_FREQ = C_SEND_SEL_FREQ), if_pos h6]

/-! ### Claim theorems -/

/-- Claim C3: for every unsigned value and even digit count, a value
representable in that many decimal digits round-trips through the packed-BCD
codec, and a larger value is encoded as its low digits (truncation, not an
error). -/
theorem c3_bcd_round_trip_and_truncation (v d : Nat) (hd : d % 2 = 0) :
    (v < 10 ^ d → from_bcd (to_bcd v d) d = v) ∧
      to_bcd v d = to_bcd (v % 10 ^ d) d := by
  have hdd : 2 * (d / 2) = d := by omega
  have hpow : (100 : Nat) ^ (d / 2) = 10 ^ d := by
    rw [show (100 : Nat) = 10 ^ 2 by norm_num, ← pow_mul, hdd]
  constructor
  · intro hv
    unfold from_bcd to_bcd
    rw [fb_tb, hpow]
    exact Nat.mod_eq_of_lt hv
  · unfold to_bcd
    rw [← hpow]
    exact (tb_go_mod (d / 2) v).symm

/-- Witness for C3 at v = 14074000, d = 10. -/
theorem c3_bcd_round_trip_and_truncation_witness :
    10 % 2 = 0 ∧
      ((14074000 < 10 ^ 10 → from_bcd (to_bcd 14074000 10) 10 = 14074000) ∧
        to_bcd 14074000 10 = to_bcd (14074000 % 10 ^ 10) 10) :=
  ⟨by decide, c3_bcd_round_trip_and_truncation 14074000 10 (by decide)⟩

/-- Claim C9: for every wire mode code in the known set and every state of
the data/digital flag, wire-to-domain translation followed by domain-to-wire
translation returns the original wire code. -/
theorem c9_mode_round_trip (m : Nat) (flag : Option Nat)
    (hm : m ∈ ([M_LSB, M_USB, M_AM, M_CW, M_NFM, M_CWR] : List Nat)) :
    (ci_mode_2_x_mode m flag).map x_mode_2_ci_mode = some m := by
  fin_cases hm <;> rcases flag with _ | dflag <;>
    first
      | rfl
      | (cases hb : dflag != 0 <;>
          simp [ci_mode_2_x_mode, x_mode_2_ci_mode, M_LSB, M_USB, M_AM, M_CW,
            M_NFM, M_CWR, hb])

/-- Witness for C9 at the USB wire code with the digital flag set. -/
theorem c9_mode_round_trip_witness :
    M_USB ∈ ([M_LSB, M_USB, M_AM, M_CW, M_NFM, M_CWR] : List Nat) ∧
      (ci_mode_2_x_mode M_USB (some 1)).map x_mode_2_ci_mode = some M_USB :=
  ⟨by decide, c9_mode_round_trip M_USB (some 1) (by decide)⟩

/-- Claim C1 is false on the code: the guard rejects a frame only when BOTH
header bytes differ from 0xFE (`&&` where the protocol requires `||`).  A
frame starting FE 00 — bytes 0 and 1 are not both the preamble — is still
echoed and answered (failure code for its unsupported opcode 0x19). -/
theorem c1_half_preamble_frame_still_answered :
    frame_get [0xFE, 0x00, 0x00, 0xA4, 0x19, 0xFD] =
      some ([0xFE, 0x00, 0x00, 0xA4, 0x19, 0xFD], 6) ∧
    (frame_parse (mkEnv [0xFE, 0x00, 0x00, 0xA4, 0x19, 0xFD] st0) 6).writes =
      [[0xFE, 0x00, 0x00, 0xA4, 0x19, 0xFD], [0xFE, 0x00, 0xA4, 0xA4, 0xFA, 0xFD]] := by
  constructor <;> rfl

/-- Claim C7 is false on the code: when no terminator arrives within 256
bytes, `frame_get` does return length 0, but the caller's guard `len >= 0`
on a uint16_t is always true, so the abandoned buffer is parsed anyway and —
its leftover bytes looking like a read-frequency command — an 11-byte reply
is written (the echo `write` itself outputs 0 bytes). -/
theorem c7_abandoned_read_still_replied :
    frame_get streamNoTerm = some (streamNoTerm, 0) ∧
    (cat_step streamNoTerm st0).map (fun e => e.writes.map List.length) =
      some [0, 11] := by
  constructor <;> rfl

/-- Claim C8 is false on the code: `cat_thread` guards the dispatcher with
`len >= 0` on a uint16_t, which always holds, so `frame_parse` runs even for
the empty (length 0) result of an abandoned read; here it even emits a
failure-code reply from the leftover buffer bytes. -/
theorem c8_empty_frame_still_dispatched :
    frame_get streamNoTerm2 = some (streamNoTerm2, 0) ∧
    (cat_step streamNoTerm2 st0).map CatEnv.writes =
      some [[], [0xFE, 0xFE, 0xFF, 0xA4, 0xFA, 0xFD]] := by
  constructor <;> rfl

/-- Counterexample to claim C4 as stated: for the request
`[FE, FE, 00, A4, 03, FD]` the reply does NOT begin `[FE, FE, A4, 00, 03]` —
`prepare_answer` writes the fixed source address 0xA4 into byte 3, never the
request's destination byte. -/
theorem c4_reply_header_counterexample :
    ((frame_parse (mkEnv rdFreqFrame st0) 6).writes.getD 1 []).take 5 ≠
      [0xFE, 0xFE, 0xA4, 0x00, 0x03] := by
  decide

/-- Claim C2: every complete, correctly terminated frame with valid preamble
is first echoed back byte for byte — the first chunk written for the frame is
exactly the received bytes — before any reply chunk. -/
theorem c2_echo_precedes_reply (f : List Nat) (st : RadioState)
    (hlen : f.length ≤ 256) (h0 : bget f 0 = FRAME_PRE) (h1 : bget f 1 = FRAME_PRE)
    (hterm : bget f (f.length - 1) = FRAME_END) :
    ∃ rest, (frame_parse (mkEnv f st) f.length).writes = f :: rest := by
  have hfpos : 0 < f.length := by
    cases f with
    | nil => exact absurd h0 (by decide)
    | cons a t => simp
  have hstep := frame_parse_steps f st f.length (by omega) hfpos h0
  rw [hstep, bufOfFrame_set_term f hfpos hterm, take_bufOfFrame]
  obtain ⟨t, ht⟩ := frame_dispatch_writes_mono
    { buf := prepare_answer (bufOfFrame f), writes := [f], radio := st }
  exact ⟨t, by rw [ht]; rfl⟩

/-- Witness for C2: a concrete select-VFO-B frame is echoed first. -/
theorem c2_echo_precedes_reply_witness :
    ∃ rest,
      (frame_parse (mkEnv [0xFE, 0xFE, 0x00, 0xA4, 0x07, 0x01, 0xFD] st0) 7).writes =
        [0xFE, 0xFE, 0x00, 0xA4, 0x07, 0x01, 0xFD] :: rest :=
  c2_echo_precedes_reply [0xFE, 0xFE, 0x00, 0xA4, 0x07, 0x01, 0xFD] st0
    (by decide) (by decide) (by decide) (by decide)

/-- Claim C5: a well-formed select-VFO frame whose selector byte is neither
0x00 (VFO A) nor 0x01 (VFO B) is echoed, then answered with the failure code
0xFA in the reply, and the radio state — the active VFO included — is
untouched. -/
theorem c5_invalid_vfo_selector (st : RadioState) (dst src sel : Nat)
    (h0 : sel ≠ S_VFOA) (h1 : sel ≠ S_VFOB) :
    (frame_parse (mkEnv (vfoFrame dst src sel) st) 7).writes =
      [vfoFrame dst src sel, [0xFE, 0xFE, src, 0xA4, CODE_NG, 0xFD]] ∧
    (frame_parse (mkEnv (vfoFrame dst src sel) st) 7).radio = st := by
  have hv : set_vfo st sel = (false, st) := by
    unfold set_vfo
    rw [if_neg h0, if_neg h1]
  have hred : frame_parse (mkEnv (vfoFrame dst src sel) st) 7 =
      (if (set_vfo st sel).1 = true then
        send_code
          { buf := prepare_answer (bufOfFrame (vfoFrame dst src sel)),
            writes := [vfoFrame dst src sel], radio := (set_vfo st sel).2 } CODE_OK
      else
        send_code
          { buf := prepare_answer (bufOfFrame (vfoFrame dst src sel)),
            writes := [vfoFrame dst src sel], radio := (set_vfo st sel).2 } CODE_NG) := rfl
  rw [hred, hv]
  exact ⟨rfl, rfl⟩

/-- Witness for C5 at selector 0x02. -/
theorem c5_invalid_vfo_selector_witness :
    (frame_parse (mkEnv (vfoFrame 0x00 0xA4 0x02) st0) 7).writes =
      [vfoFrame 0x00 0xA4 0x02, [0xFE, 0xFE, 0xA4, 0xA4, CODE_NG, 0xFD]] ∧
    (frame_parse (mkEnv (vfoFrame 0x00 0xA4 0x02) st0) 7).radio = st0 :=
  c5_invalid_vfo_selector st0 0x00 0xA4 0x02 (by decide) (by decide)

/-- Claim C10: a well-formed transmit-control frame (opcode 0x1C) whose first
payload byte is not the transmit sub-selector 0x00 gets the echo and nothing
else — no reply chunk of any kind — and leaves the radio state unchanged. -/
theorem c10_ptt_other_selector_ignored (f : List Nat) (st : RadioState)
    (hlen : f.length ≤ 256)
    (h0 : bget f 0 = FRAME_PRE) (h1 : bget f 1 = FRAME_PRE)
    (h4 : bget f 4 = C_CTL_PTT) (h5 : bget f 5 ≠ 0x00)
    (hterm : bget f (f.length - 1) = FRAME_END) :
    (frame_parse (mkEnv f st) f.length).writes = [f] ∧
    (frame_parse (mkEnv f st) f.length).radio = st := by
  have h5lt : 5 < f.length := by
    by_contra hc
    exact h5 (by unfold bget; exact List.getD_eq_default _ _ (by omega))
  have hfpos : 0 < f.length := by omega
  have hstep := frame_parse_steps f st f.length (by omega) hfpos h0
  rw [hstep, bufOfFrame_set_term f hfpos hterm, take_bufOfFrame]
  have hb4 : bget (prepare_answer (bufOfFrame f)) 4 = C_CTL_PTT := by
    rw [bget_prepare_answer _ 4 (by omega) (by omega), bget_bufOfFrame f 4 (by omega)]
    exact h4
  have hb5 : bget (prepare_answer (bufOfFrame f)) 5 ≠ 0x00 := by
    rw [bget_prepare_answer _ 5 (by omega) (by omega), bget_bufOfFrame f 5 (by omega)]
    exact h5
  rw [frame_dispatch_ptt_other _ hb4 hb5]
  exact ⟨rfl, rfl⟩

/-- Witness for C10: opcode 0x1C with payload selector 0x01. -/
theorem c10_ptt_other_selector_ignored_witness :
    (frame_parse (mkEnv [0xFE, 0xFE, 0x00, 0xA4, 0x1C, 0x01, 0xFD] st0) 7).writes =
      [[0xFE, 0xFE, 0x00, 0xA4, 0x1C, 0x01, 0xFD]] ∧
    (frame_parse (mkEnv [0xFE, 0xFE, 0x00, 0xA4, 0x1C, 0x01, 0xFD] st0) 7).radio = st0 := by
  have h := c10_ptt_other_selector_ignored [0xFE, 0xFE, 0x00, 0xA4, 0x1C, 0x01, 0xFD] st0
    (by decide) (by decide) (by decide) (by decide) (by decide) (by decide)
  exact h

theorem sel_freq_set_state (st : RadioState) (sel v : Nat) (hv : v < 10 ^ 10) :
    (frame_parse (mkEnv (selFreqSetFrame sel v) st) 12).radio =
      (sel_freq_store (selSetEnv st sel v) v).radio := by
  have hE1 : frame_parse (mkEnv (selFreqSetFrame sel v) st) 12 =
      frame_dispatch (selSetEnv st sel v) := rfl
  have h1 : v % 10 < 10 := Nat.mod_lt _ (by norm_num)
  have h2 : v / 10 % 10 < 10 := Nat.mod_lt _ (by norm_num)
  have hb6ne : bget (selSetEnv st sel v).buf 6 ≠ FRAME_END := by
    show v % 10 + 16 * (v / 10 % 10) ≠ FRAME_END
    unfold FRAME_END
    omega
  have hdec : from_bcd ((selSetEnv st sel v).buf.drop 6) 10 = v := by
    show fb_go 5 (tb_go 5 v ++ ([0xFD] ++ List.replicate 244 0)) = v
    rw [fb_go_append 5 _ _ (tb_go_length 5 v), fb_tb]
    rw [show (100 : Nat) ^ 5 = 10 ^ 10 by norm_num]
    exact Nat.mod_eq_of_lt hv
  rw [hE1, frame_dispatch_sel_freq_set (selSetEnv st sel v) rfl hb6ne, hdec, send_code_radio]

theorem sel_freq_store_field (st : RadioState) (sel v : Nat) :
    (if sel = 0 then (sel_freq_store (selSetEnv st sel v) v).radio.vfoA.freq
     else (sel_freq_store (selSetEnv st sel v) v).radio.vfoB.freq) = v := by
  rcases st with ⟨vfo, fA, fB, tx⟩
  by_cases hsel : sel = 0
  · subst hsel
    cases vfo <;> rfl
  · rw [if_neg hsel]
    unfold sel_freq_store
    rw [show bget (selSetEnv ⟨vfo, fA, fB, tx⟩ sel v).buf 5 = sel from rfl, if_neg hsel]
    cases vfo <;> rfl

theorem sel_freq_query_reply (st : RadioState) (sel : Nat) :
    (frame_parse (mkEnv (selFreqQueryFrame sel) st) 7).writes =
      [selFreqQueryFrame sel,
        [0xFE, 0xFE, 0xA4, 0xA4, 0x25, sel] ++
          to_bcd (if sel = 0 then st.vfoA.freq else st.vfoB.freq) 10 ++ [0xFD]] := rfl

/-- Claim C6: for every frequency representable in the 10-digit BCD payload,
a set-form 0x25 frame for a VFO followed by a query-form 0x25 frame for the
same VFO yields a query reply whose BCD field decodes to the just-set
value. -/
theorem c6_sel_freq_set_then_query (st : RadioState) (sel v : Nat) (hv : v < 10 ^ 10) :
    from_bcd
      (((frame_parse
          (mkEnv (selFreqQueryFrame sel) ((frame_parse (mkEnv (selFreqSetFrame sel v) st) 12).radio))
          7).writes.getD 1 []).drop 6)
      10 = v := by
  rw [sel_freq_set_state st sel v hv, sel_freq_query_reply, sel_freq_store_field st sel v]
  show fb_go 5 (tb_go 5 v ++ [0xFD]) = v
  rw [fb_go_append 5 _ _ (tb_go_length 5 v), fb_tb]
  rw [show (100 : Nat) ^ 5 = 10 ^ 10 by norm_num]
  exact Nat.mod_eq_of_lt hv

/-- Witness for C6: VFO B (selector 1), frequency 21074000. -/
theorem c6_sel_freq_set_then_query_witness :
    from_bcd
      (((frame_parse
          (mkEnv (selFreqQueryFrame 1) ((frame_parse (mkEnv (selFreqSetFrame 1 21074000) st0) 12).radio))
          7).writes.getD 1 []).drop 6)
      10 = 21074000 :=
  c6_sel_freq_set_then_query st0 1 21074000 (by decide)

/-- Claim C4 (amended): for the 6-byte read-frequency request
`[FE, FE, 00, A4, 03, FD]` the reply written after the echo is exactly
`[FE, FE, A4, A4, 03]` followed by 5 packed-BCD bytes and the terminator:
11 bytes whose BCD field decodes to the active VFO's frequency.  (Byte 3 of
the reply is the fixed local source address 0xA4, not the 0x00 the claim
expected.) -/
theorem c4_read_freq_reply_amended (st : RadioState) (hf : activeFreq st < 10 ^ 10) :
    (frame_parse (mkEnv rdFreqFrame st) 6).writes =
      [rdFreqFrame,
        [0xFE, 0xFE, 0xA4, 0xA4, 0x03] ++ to_bcd (activeFreq st) 10 ++ [0xFD]] ∧
    ((frame_parse (mkEnv rdFreqFrame st) 6).writes.getD 1 []).length = 11 ∧
    from_bcd (((frame_parse (mkEnv rdFreqFrame st) 6).writes.getD 1 []).drop 5) 10 =
      activeFreq st := by
  have hw : (frame_parse (mkEnv rdFreqFrame st) 6).writes =
      [rdFreqFrame,
        [0xFE, 0xFE, 0xA4, 0xA4, 0x03] ++ to_bcd (activeFreq st) 10 ++ [0xFD]] := rfl
  refine ⟨hw, ?_, ?_⟩
  · rw [hw]
    show ([0xFE, 0xFE, 0xA4, 0xA4, 0x03] ++ to_bcd (activeFreq st) 10 ++ [0xFD]).length = 11
    simp [to_bcd_length]
  · rw [hw]
    show fb_go 5 (tb_go 5 (activeFreq st) ++ [0xFD]) = activeFreq st
    rw [fb_go_append 5 _ _ (tb_go_length 5 _), fb_tb]
    rw [show (100 : Nat) ^ 5 = 10 ^ 10 by norm_num]
    exact Nat.mod_eq_of_lt hf

/-- Witness for C4 (amended) at the concrete state st0. -/
theorem c4_read_freq_reply_amended_witness :
    (frame_parse (mkEnv rdFreqFrame st0) 6).writes =
      [rdFreqFrame,
        [0xFE, 0xFE, 0xA4, 0xA4, 0x03] ++ to_bcd (activeFreq st0) 10 ++ [0xFD]] ∧
    ((frame_parse (mkEnv rdFreqFrame st0) 6).writes.getD 1 []).length = 11 ∧
    from_bcd (((frame_parse (mkEnv rdFreqFrame st0) 6).writes.getD 1 []).drop 5) 10 =
      activeFreq st0 :=
  c4_read_freq_reply_amended st0 (by decide)

end X6100Cat
